import Mathlib

/-!
# DataOps-Copilot frontend: shallow embedding and verification

This file embeds the core of the DataOps-Copilot frontend in Lean 4 and
proves the specification claims about it:

* the typed API client (`frontend/lib/api.ts`): the `uploadAndProfile`
  multipart request builder and its success/failure contract;
* the Upload Widget (`frontend/components/features/FileUpload.tsx`):
  drag/drop/select/toggle/analyze/cancel handlers, the Analyze-button
  enablement rule, and `formatFileSize`;
* the Results Widget (`frontend/components/features/ProfileResults.tsx`):
  `getSeverityColor`, the column-analysis stats cell, and the AI-insights
  panel with its attribution line;
* the Dashboard page container (`frontend/app/dashboard/page.tsx`): the
  result/mutation state, upload/reset transitions, and the mount/unmount
  of the upload widget.

JavaScript numbers that the code formats are modelled as exact rationals
(every value the claims touch is exactly representable as a binary double,
so the rational model agrees with double arithmetic), strings as `String`,
`undefined`/`null` fields as `Option`, and thrown errors as `Except`.
-/

namespace DataOps

/-- A selected file: the fields of the browser `File` object the frontend
reads (`name`, `size` in bytes) plus opaque content bytes. -/
structure FileData where
  name : String
  size : Nat
  content : List Nat
deriving DecidableEq, Repr

/-! ## JavaScript primitives used by the code

The frontend formats numbers with `toFixed` and `toLocaleString` and
branches on string truthiness; these are modelled here once. -/

/-- JavaScript string truthiness: a string is truthy iff it is non-empty.
Used by `if (description)` in the client and by
`llm_insights.model_used && ...` in the Results Widget. -/
def jsTruthyStr : Option String → Bool
  | some s => !(s == "")
  | none => false

/-- `Boolean.prototype.toString`: `"true"` / `"false"`. -/
def jsBoolToString (b : Bool) : String :=
  if b then "true" else "false"

/-- Left-pad a digit string with zeros to the given width. -/
def padZeros (w : Nat) (s : String) : String :=
  if s.length < w then String.mk (List.replicate (w - s.length) '0') ++ s else s

/-- Model of `Number.prototype.toFixed(f)` on an exact rational value:
per ECMA-262, the sign is taken out first and the magnitude is rounded to
`f` decimal digits, ties away from zero. -/
def jsToFixed (f : Nat) (q : ℚ) : String :=
  let sign := if q < 0 then "-" else ""
  let m := (2 * q.num.natAbs * 10 ^ f + q.den) / (2 * q.den)
  if f = 0 then sign ++ toString m
  else sign ++ toString (m / 10 ^ f) ++ "." ++ padZeros f (toString (m % 10 ^ f))

/-- Model of `(n / d).toFixed(1)` for natural `n` and a power-of-two `d`
(the quotient is then an exact binary double): round `10 * n / d` half up
and print with one digit after the point. -/
def jsToFixed1Div (n d : Nat) : String :=
  let m := (2 * 10 * n + d) / (2 * d)
  toString (m / 10) ++ "." ++ toString (m % 10)

/-- Group the digits of `n` in threes with `,`, the `en-US` behaviour of
`Number.prototype.toLocaleString` the UI relies on ("thousands-grouped"). -/
def chunk3 : List Char → List (List Char)
  | [] => []
  | a :: b :: c :: rest => [a, b, c] :: chunk3 rest
  | l => [l]

/-- `Number.prototype.toLocaleString` for a natural number. -/
def jsToLocaleString (n : Nat) : String :=
  let littleEndian := (toString n).data.reverse
  String.mk (List.intercalate [','] ((chunk3 littleEndian).map List.reverse).reverse)

/-! ## Data model: the profiling result contract (`frontend/lib/api.ts`) -/

/-- `BasicStats` from `api.ts`. -/
structure BasicStats where
  row_count : Nat
  column_count : Nat
  memory_usage_mb : ℚ
  duplicate_rows : Nat
  total_nulls : Nat
  null_percentage : ℚ
deriving DecidableEq, Repr

/-- `ColumnAnalysis` from `api.ts`: required identity/null/unique fields
and the optional per-dtype statistics. -/
structure ColumnAnalysis where
  name : String
  dtype : String
  null_count : Nat
  null_percentage : ℚ
  unique_count : Nat
  unique_percentage : ℚ
  min : Option ℚ := none
  max : Option ℚ := none
  mean : Option ℚ := none
  median : Option ℚ := none
  std : Option ℚ := none
  avg_length : Option ℚ := none
  max_length : Option ℚ := none
  min_length : Option ℚ := none
  sample_values : Option (List String) := none
  min_date : Option String := none
  max_date : Option String := none
deriving DecidableEq, Repr

/-- `QualityIssue` from `api.ts`. -/
structure QualityIssue where
  severity : String
  type : String
  column : Option String := none
  description : String
  recommendation : String
deriving DecidableEq, Repr

/-- `LLMInsights` from `api.ts`. -/
structure LLMInsights where
  insights : String
  model_used : Option String := none
  tokens_used : Option Nat := none
deriving DecidableEq, Repr

/-- `ProfileResponse` from `api.ts` (the spec's ProfilingResult). -/
structure ProfileResponse where
  file_name : String
  timestamp : String
  basic_stats : BasicStats
  columns : List ColumnAnalysis
  quality_issues : List QualityIssue
  llm_insights : Option LLMInsights := none
  upload_id : Option String := none
  file_size_mb : Option ℚ := none
  success : Bool
deriving DecidableEq, Repr

/-! ## API client (`frontend/lib/api.ts`) -/

/-- A value appended to a `FormData`: either a text field or a binary file. -/
inductive FormValue where
  | str (s : String)
  | fileV (f : FileData)
deriving DecidableEq, Repr

/-- The `FormData` built by `uploadAndProfile`, in append order:
`file`, then `use_llm` (`useLLM.toString()`), then — only when the
`description` argument is truthy (`if (description)`) — `description`. -/
def buildUploadForm (file : FileData) (useLLM : Bool) (description : Option String) :
    List (String × FormValue) :=
  [("file", FormValue.fileV file), ("use_llm", FormValue.str (jsBoolToString useLLM))] ++
    (match description with
      | some d => if d = "" then [] else [("description", FormValue.str d)]
      | none => [])

/-- `uploadAndProfile(file, useLLM, description?)`: posts the multipart
form to `{base}/api/v1/data/upload` and returns `response.data`. The
transport (axios) is a parameter: it either produces a parsed
`ProfileResponse` body on a 2xx response or throws, which axios does on
any non-2xx status and on network failure; a thrown error with its message
is `Except.error`. -/
def uploadAndProfile
    (transport : List (String × FormValue) → Except String ProfileResponse)
    (file : FileData) (useLLM : Bool) (description : Option String) :
    Except String ProfileResponse :=
  transport (buildUploadForm file useLLM description)

/-! ## Results Widget (`frontend/components/features/ProfileResults.tsx`) -/

/-- `getSeverityColor` from `ProfileResults.tsx`: the `switch` on the
severity string, with the `default` branch returning the gray classes. -/
def getSeverityColor (severity : String) : String :=
  if severity = "high" then "bg-red-100 text-red-800 border-red-200"
  else if severity = "medium" then "bg-yellow-100 text-yellow-800 border-yellow-200"
  else if severity = "low" then "bg-blue-100 text-blue-800 border-blue-200"
  else "bg-gray-100 text-gray-800 border-gray-200"

/-- The Stats cell of one column-analysis table row: two independent JSX
conditionals, `col.mean !== undefined && col.mean !== null && <span>μ: …</span>`
followed by the analogous conditional for `col.avg_length`; each renders a
span when its field is present. Returns the rendered spans in order. -/
def statsCell (col : ColumnAnalysis) : List String :=
  (match col.mean with
    | some m => ["μ: " ++ jsToFixed 2 m]
    | none => []) ++
  (match col.avg_length with
    | some a => ["avg len: " ++ jsToFixed 0 a]
    | none => [])

/-- One rendered row of the column-analysis table: name, dtype chip,
unique cell, nulls cell, stats cell. -/
structure ColumnRow where
  nameCell : String
  dtypeCell : String
  uniqueCell : String
  nullsCell : String
  statsSpans : List String
deriving DecidableEq, Repr

/-- `columns.map((col, idx) => <tr>…</tr>)`: the table body, one row per
column in received order. -/
def renderColumnRows (columns : List ColumnAnalysis) : List ColumnRow :=
  columns.map fun col =>
    { nameCell := col.name
      dtypeCell := col.dtype
      uniqueCell := jsToLocaleString col.unique_count ++ " (" ++
        jsToFixed 1 col.unique_percentage ++ "%)"
      nullsCell := jsToLocaleString col.null_count ++ " (" ++
        jsToFixed 1 col.null_percentage ++ "%)"
      statsSpans := statsCell col }

/-- The attribution line of the AI-insights panel:
`{llm_insights.model_used && (<p>Powered by {model_used} • {tokens_used?.toLocaleString()} tokens</p>)}`.
Rendered only when `model_used` is truthy (present and non-empty); the
optional-chained token count collapses to nothing when `tokens_used` is
undefined. -/
def attributionLine (li : LLMInsights) : Option String :=
  if jsTruthyStr li.model_used then
    some ("Powered by " ++ li.model_used.getD "" ++ " • " ++
      (match li.tokens_used with
        | some t => jsToLocaleString t
        | none => "") ++ " tokens")
  else none

/-- The rendered AI-insights panel: the optional attribution line and the
free-text insight body (rendered with preserved whitespace). -/
structure InsightsPanel where
  attribution : Option String
  text : String
deriving DecidableEq, Repr

/-- `{llm_insights && (<div className="card …">…</div>)}`: the panel is
rendered exactly when `llm_insights` is present (an object is always
truthy). -/
def renderInsightsSection (llm_insights : Option LLMInsights) : Option InsightsPanel :=
  match llm_insights with
  | some li => some { attribution := attributionLine li, text := li.insights }
  | none => none

/-- `{quality_issues.length > 0 && (<div className="card">…</div>)}`: the
quality-issues panel, present iff the list is non-empty; each issue keeps
its received position and carries its severity color classes. -/
def renderQualityIssues (quality_issues : List QualityIssue) :
    Option (List (QualityIssue × String)) :=
  if quality_issues.length > 0 then
    some (quality_issues.map fun issue => (issue, getSeverityColor issue.severity))
  else none

/-! ## Upload Widget (`frontend/components/features/FileUpload.tsx`)

Local component state is `selectedFile`, `useLLM` (default `true`) and
`isDragging`; `isLoading` and the upload callback come from the parent as
props. Each event handler below is the corresponding arrow function of the
component, as a transition on the local state. -/

/-- The `useState` triple of `FileUpload`. -/
structure UploadState where
  selectedFile : Option FileData
  useLLM : Bool
  isDragging : Bool
deriving DecidableEq, Repr

/-- The `useState` initial values: no file, `useLLM = true`, not dragging. -/
def initialUploadState : UploadState :=
  { selectedFile := none, useLLM := true, isDragging := false }

/-- `handleDragOver`: `setIsDragging(true)`. -/
def handleDragOver (s : UploadState) : UploadState :=
  { s with isDragging := true }

/-- `handleDragLeave`: `setIsDragging(false)`. -/
def handleDragLeave (s : UploadState) : UploadState :=
  { s with isDragging := false }

/-- `handleDrop`: `setIsDragging(false)`, then if `e.dataTransfer.files`
is non-empty, `setSelectedFile(files[0])`. -/
def handleDrop (s : UploadState) (files : List FileData) : UploadState :=
  let s' := { s with isDragging := false }
  match files with
  | f :: _ => { s' with selectedFile := some f }
  | [] => s'

/-- `handleFileSelect`: `e.target.files` may be null (`none`); when it is
present and non-empty, `setSelectedFile(files[0])`. -/
def handleFileSelect (s : UploadState) (files : Option (List FileData)) : UploadState :=
  match files with
  | some (f :: _) => { s with selectedFile := some f }
  | _ => s

/-- The checkbox `onChange`: `setUseLLM(e.target.checked)`. -/
def toggleUseLLM (s : UploadState) (checked : Bool) : UploadState :=
  { s with useLLM := checked }

/-- The Cancel button `onClick`: `setSelectedFile(null)`. -/
def handleCancel (s : UploadState) : UploadState :=
  { s with selectedFile := none }

/-- `handleUpload`: `if (selectedFile) onUpload(selectedFile, useLLM)` —
the upload intent emitted to the parent, or nothing. -/
def handleUpload (s : UploadState) : Option (FileData × Bool) :=
  match s.selectedFile with
  | some f => some (f, s.useLLM)
  | none => none

/-- The Analyze button exists in the JSX only in the `selectedFile`
branch of the ternary, i.e. it is rendered iff a file is selected. -/
def analyzeRendered (s : UploadState) : Bool :=
  s.selectedFile.isSome

/-- The Analyze button carries `disabled={isLoading}`. -/
def analyzeDisabled (isLoading : Bool) : Bool :=
  isLoading

/-- The Analyze action is available to the user iff its button is
rendered and not disabled. -/
def analyzeEnabled (s : UploadState) (isLoading : Bool) : Bool :=
  analyzeRendered s && !(analyzeDisabled isLoading)

/-- The user-visible events of the widget. -/
inductive UploadEvent where
  | dragOver
  | dragLeave
  | drop (files : List FileData)
  | fileSelect (files : Option (List FileData))
  | toggle (checked : Bool)
  | clickAnalyze
  | clickCancel
deriving DecidableEq, Repr

/-- One event step of the widget: the next local state and the upload
intent emitted to the parent, if any. A click on a button that is not
rendered or is disabled does not run its handler (the DOM never delivers
clicks to disabled buttons), so `clickAnalyze` and `clickCancel` are
no-ops unless the button is rendered with `disabled={isLoading}` false. -/
def uploadStep (isLoading : Bool) (s : UploadState) :
    UploadEvent → UploadState × Option (FileData × Bool)
  | .dragOver => (handleDragOver s, none)
  | .dragLeave => (handleDragLeave s, none)
  | .drop files => (handleDrop s files, none)
  | .fileSelect files => (handleFileSelect s files, none)
  | .toggle checked => (toggleUseLLM s checked, none)
  | .clickAnalyze =>
      if analyzeEnabled s isLoading then (s, handleUpload s) else (s, none)
  | .clickCancel =>
      if analyzeRendered s && !isLoading then (handleCancel s, none) else (s, none)

/-- `formatFileSize` from `FileUpload.tsx`: `bytes` is `File.size`, a
byte count. -/
def formatFileSize (bytes : Nat) : String :=
  if bytes < 1024 then toString bytes ++ " B"
  else if bytes < 1024 * 1024 then jsToFixed1Div bytes 1024 ++ " KB"
  else jsToFixed1Div bytes (1024 * 1024) ++ " MB"

/-! ## Dashboard page container (`frontend/app/dashboard/page.tsx`)

The container owns `profileResult` and the react-query upload mutation;
it renders `FileUpload` when `profileResult` is null and `ProfileResults`
otherwise, so the widget's local `useState` state exists only while the
upload view is mounted and is recreated at its defaults on remount. -/

/-- The part of the react-query mutation object the page reads:
`isPending` and `error?.message`. -/
structure MutationState where
  isPending : Bool
  error : Option String
deriving DecidableEq, Repr

/-- A fresh mutation: idle, no error. -/
def initialMutation : MutationState :=
  { isPending := false, error := none }

/-- The whole client-side state: the container's `profileResult` and
mutation, plus the mounted upload widget's local state (`none` while the
results view is shown and the widget is unmounted). -/
structure AppState where
  profileResult : Option ProfileResponse
  mutation : MutationState
  widget : Option UploadState
deriving DecidableEq, Repr

/-- React's conditional rendering `!profileResult ? <FileUpload/> :
<ProfileResults/>`: when `profileResult` is none the widget is mounted
(keeping its state if it already was, fresh `useState` defaults if not),
otherwise it is unmounted and its local state discarded. -/
def remount (a : AppState) : AppState :=
  if a.profileResult.isNone then
    { a with widget := some (a.widget.getD initialUploadState) }
  else
    { a with widget := none }

/-- The initial dashboard state: no result, idle mutation, upload view
mounted fresh. -/
def initialAppState : AppState :=
  remount { profileResult := none, mutation := initialMutation, widget := none }

/-- `handleFileUpload`: `setProfileResult(null)` then
`uploadMutation.mutate({file, useLLM})` — mutate puts the mutation in the
pending state with its error cleared. -/
def appUpload (a : AppState) : AppState :=
  remount { a with profileResult := none, mutation := { isPending := true, error := none } }

/-- The mutation's `onSuccess`: `setProfileResult(data)`; the mutation
settles successfully. -/
def appSuccess (a : AppState) (data : ProfileResponse) : AppState :=
  remount { a with profileResult := some data,
                   mutation := { isPending := false, error := none } }

/-- The mutation settling with an error: `uploadMutation.error` becomes
the thrown error, surfaced through the `error` prop. -/
def appFailure (a : AppState) (msg : String) : AppState :=
  remount { a with mutation := { isPending := false, error := some msg } }

/-- `handleReset`: `setProfileResult(null)` and `uploadMutation.reset()`. -/
def appReset (a : AppState) : AppState :=
  remount { a with profileResult := none, mutation := initialMutation }

/-- A widget-local event while the upload view is mounted: the widget
state steps by `uploadStep` (with `isLoading = mutation.isPending`); the
container state is untouched. -/
def appWidgetEvent (a : AppState) (e : UploadEvent) : AppState :=
  { a with widget := a.widget.map fun s => (uploadStep a.mutation.isPending s e).1 }

/-- The states the dashboard can actually reach from page load. -/
inductive Reachable : AppState → Prop where
  | init : Reachable initialAppState
  | upload {a} : Reachable a → Reachable (appUpload a)
  | success {a} (data : ProfileResponse) : Reachable a → Reachable (appSuccess a data)
  | failure {a} (msg : String) : Reachable a → Reachable (appFailure a msg)
  | reset {a} : Reachable a → Reachable (appReset a)
  | widgetEvent {a} (e : UploadEvent) : Reachable a → Reachable (appWidgetEvent a e)

/-! ## Concrete sample values -/

/-- A sample uploaded file. -/
def demoFile : FileData :=
  { name := "sales_data.csv", size := 1536, content := [104, 105] }

/-- A column that (invalidly, per the contract) carries both a numeric
mean and a string average length. -/
def demoColumnBoth : ColumnAnalysis :=
  { name := "amount", dtype := "float64", null_count := 0, null_percentage := 0,
    unique_count := 10, unique_percentage := 100,
    mean := some 1, avg_length := some 2 }

/-- Insights with no model attribution. -/
def demoInsightsNoModel : LLMInsights :=
  { insights := "The data looks clean." }

/-- Insights whose `model_used` is defined but the empty string. -/
def demoInsightsEmptyModel : LLMInsights :=
  { insights := "The data looks clean.", model_used := some "" }

/-- Insights with a model name but no token count. -/
def demoInsightsNoTokens : LLMInsights :=
  { insights := "The data looks clean.", model_used := some "claude-x" }

/-- A sample successful profiling result. -/
def demoResponse : ProfileResponse :=
  { file_name := "sales_data.csv", timestamp := "2026-01-01T00:00:00Z",
    basic_stats :=
      { row_count := 120, column_count := 1, memory_usage_mb := 1,
        duplicate_rows := 0, total_nulls := 0, null_percentage := 0 },
    columns := [demoColumnBoth],
    quality_issues := [],
    llm_insights := some demoInsightsNoTokens,
    success := true }

/-- A widget state with a file selected. -/
def demoSelectedState : UploadState :=
  { selectedFile := some demoFile, useLLM := true, isDragging := false }

/-! ## Theorems -/

/-- **C4.** The severity-badge color is a total pure function of the
severity string: `"high"` maps to the red classes, `"medium"` to yellow,
`"low"` to blue, and every other string to the neutral gray default. -/
theorem getSeverityColor_spec :
    getSeverityColor "high" = "bg-red-100 text-red-800 border-red-200" ∧
    getSeverityColor "medium" = "bg-yellow-100 text-yellow-800 border-yellow-200" ∧
    getSeverityColor "low" = "bg-blue-100 text-blue-800 border-blue-200" ∧
    ∀ s : String, s ≠ "high" → s ≠ "medium" → s ≠ "low" →
      getSeverityColor s = "bg-gray-100 text-gray-800 border-gray-200" := by
  refine ⟨rfl, rfl, rfl, ?_⟩
  intro s h1 h2 h3
  simp [getSeverityColor, h1, h2, h3]

/-- Witness for C4: the unrecognized severity `"critical"` maps to the
neutral gray default. -/
theorem getSeverityColor_spec_witness :
    getSeverityColor "critical" = "bg-gray-100 text-gray-800 border-gray-200" :=
  getSeverityColor_spec.2.2.2 "critical" (by decide) (by decide) (by decide)

/-- **C5.** `formatFileSize` renders `"<n> B"` below 1024 bytes,
`n / 1024` rounded to one decimal (`(10 * n + 512) / 1024` is that value
scaled by ten) with `" KB"` below 1 048 576, and `n / 1 048 576` rounded to
one decimal with `" MB"` otherwise; in particular `0 ↦ "0 B"`,
`1536 ↦ "1.5 KB"` and `1572864 ↦ "1.5 MB"`. -/
theorem formatFileSize_spec :
    (∀ n, n < 1024 → formatFileSize n = toString n ++ " B") ∧
    (∀ n, 1024 ≤ n → n < 1048576 →
      formatFileSize n = toString ((10 * n + 512) / 1024 / 10) ++ "." ++
        toString ((10 * n + 512) / 1024 % 10) ++ " KB") ∧
    (∀ n, 1048576 ≤ n →
      formatFileSize n = toString ((10 * n + 524288) / 1048576 / 10) ++ "." ++
        toString ((10 * n + 524288) / 1048576 % 10) ++ " MB") ∧
    formatFileSize 0 = "0 B" ∧
    formatFileSize 1536 = "1.5 KB" ∧
    formatFileSize 1572864 = "1.5 MB" := by
  have scale : ∀ n d : Nat, (2 * 10 * n + 2 * d) / (2 * (2 * d)) = (10 * n + d) / (2 * d) := by
    intro n d
    rw [show 2 * 10 * n + 2 * d = 2 * (10 * n + d) by ring, Nat.mul_div_mul_left _ _ (by norm_num)]
  refine ⟨?_, ?_, ?_, by decide, by decide, by decide⟩
  · intro n h
    simp [formatFileSize, h]
  · intro n h1 h2
    have h1' : ¬ n < 1024 := by omega
    have h2' : n < 1024 * 1024 := by omega
    simp only [formatFileSize, h1', h2', if_true, if_false, jsToFixed1Div]
    have := scale n 512
    norm_num at this ⊢
    rw [this]
  · intro n h
    have h1' : ¬ n < 1024 := by omega
    have h2' : ¬ n < 1024 * 1024 := by omega
    simp only [formatFileSize, h1', h2', if_false, jsToFixed1Div]
    have := scale n 524288
    norm_num at this ⊢
    rw [this]

/-- Witness for C5: each branch of the size formatter at a concrete byte
count. -/
theorem formatFileSize_spec_witness :
    formatFileSize 512 = "512 B" ∧
    formatFileSize 1536 = toString ((10 * 1536 + 512) / 1024 / 10) ++ "." ++
      toString ((10 * 1536 + 512) / 1024 % 10) ++ " KB" ∧
    formatFileSize 2097152 = toString ((10 * 2097152 + 524288) / 1048576 / 10) ++ "." ++
      toString ((10 * 2097152 + 524288) / 1048576 % 10) ++ " MB" :=
  ⟨formatFileSize_spec.1 512 (by decide),
   formatFileSize_spec.2.1 1536 (by decide) (by decide),
   formatFileSize_spec.2.2.1 2097152 (by decide)⟩

/-- **C1, counterexample.** On a column carrying both `mean` and
`avg_length`, the stats cell renders both spans, not only the mean: the
two JSX conditionals are independent, so numeric stats do not take
priority over string-length stats. -/
theorem statsCell_both_counterexample :
    demoColumnBoth.mean = some 1 ∧ demoColumnBoth.avg_length = some 2 ∧
    statsCell demoColumnBoth = ["μ: 1.00", "avg len: 2"] ∧
    statsCell demoColumnBoth ≠ ["μ: 1.00"] := by
  decide

/-- **C1, amended.** In every rendered column row the stats cell shows
the mean span (two decimals) when `mean` is present and the average-length
span (zero decimals) when `avg_length` is present, independently: exactly
one span when exactly one field is present, nothing when neither is, and
both spans — mean first — when both are present. -/
theorem statsCell_spec :
    (∀ cols : List ColumnAnalysis,
      (renderColumnRows cols).map ColumnRow.statsSpans = cols.map statsCell) ∧
    (∀ col : ColumnAnalysis,
      (∀ m, col.mean = some m → col.avg_length = none →
        statsCell col = ["μ: " ++ jsToFixed 2 m]) ∧
      (∀ a, col.mean = none → col.avg_length = some a →
        statsCell col = ["avg len: " ++ jsToFixed 0 a]) ∧
      (col.mean = none → col.avg_length = none → statsCell col = []) ∧
      (∀ m a, col.mean = some m → col.avg_length = some a →
        statsCell col = ["μ: " ++ jsToFixed 2 m, "avg len: " ++ jsToFixed 0 a])) := by
  constructor
  · intro cols
    simp [renderColumnRows]
  · intro col
    refine ⟨?_, ?_, ?_, ?_⟩ <;> intros <;> simp_all [statsCell]

/-- Witness for C1 (amended): the both-fields case on the sample column. -/
theorem statsCell_spec_witness :
    statsCell demoColumnBoth = ["μ: " ++ jsToFixed 2 1, "avg len: " ++ jsToFixed 0 2] :=
  ((statsCell_spec.2 demoColumnBoth).2.2.2) 1 2 rfl rfl

/-- **C6.** The AI-insights panel is rendered iff `llm_insights` is
present, and when it is rendered with `model_used` undefined the
attribution line is omitted while the insight text still renders. -/
theorem renderInsightsSection_spec :
    (∀ li : Option LLMInsights, (renderInsightsSection li).isSome = li.isSome) ∧
    (∀ i : LLMInsights, i.model_used = none →
      renderInsightsSection (some i) = some { attribution := none, text := i.insights }) := by
  constructor
  · intro li
    cases li <;> rfl
  · intro i h
    simp [renderInsightsSection, attributionLine, jsTruthyStr, h]

/-- Witness for C6: insights with no `model_used` render the panel with
the insight text and no attribution line. -/
theorem renderInsightsSection_spec_witness :
    renderInsightsSection (some demoInsightsNoModel) =
      some { attribution := none, text := demoInsightsNoModel.insights } :=
  renderInsightsSection_spec.2 demoInsightsNoModel rfl

/-- **C10, counterexample.** `model_used` defined but equal to the empty
string is falsy in `llm_insights.model_used && …`, so the attribution line
is not rendered even though `model_used` is defined and `tokens_used` is
undefined. -/
theorem attributionLine_counterexample :
    demoInsightsEmptyModel.model_used = some "" ∧
    demoInsightsEmptyModel.tokens_used = none ∧
    attributionLine demoInsightsEmptyModel = none := by
  decide

/-- **C10, amended.** When `model_used` is present and non-empty and
`tokens_used` is undefined, the attribution line renders with the model
name, the `•` separator, and the literal word `tokens` with no number
before it (the optional-chained token count collapses to the empty
string). -/
theorem attributionLine_no_tokens (li : LLMInsights) (m : String) :
    li.model_used = some m → m ≠ "" → li.tokens_used = none →
    attributionLine li = some ("Powered by " ++ m ++ " • " ++ "" ++ " tokens") := by
  intro h1 h2 h3
  simp [attributionLine, jsTruthyStr, h1, h2, h3]

/-- Witness for C10 (amended): a model name with no token count yields
the line with an empty count before `" tokens"`. -/
theorem attributionLine_no_tokens_witness :
    attributionLine demoInsightsNoTokens =
      some ("Powered by " ++ "claude-x" ++ " • " ++ "" ++ " tokens") :=
  attributionLine_no_tokens demoInsightsNoTokens "claude-x" rfl (by decide) rfl

/-- **C2.** `uploadAndProfile` builds a multipart form holding the binary
`file` field and a `use_llm` field equal to the stringified boolean; a
`description` field appears only when a description was given (and then
carries it verbatim); the transport's parsed body is returned on success,
and a transport/HTTP failure propagates as an error carrying the failure
message, never as a result. -/
theorem uploadAndProfile_contract
    (transport : List (String × FormValue) → Except String ProfileResponse)
    (file : FileData) (useLLM : Bool) (description : Option String) :
    ("file", FormValue.fileV file) ∈ buildUploadForm file useLLM description ∧
    ("use_llm", FormValue.str (if useLLM then "true" else "false")) ∈
      buildUploadForm file useLLM description ∧
    (∀ v, ("description", v) ∈ buildUploadForm file useLLM description →
      ∃ d, description = some d ∧ v = FormValue.str d) ∧
    (∀ d, description = some d → d ≠ "" →
      ("description", FormValue.str d) ∈ buildUploadForm file useLLM description) ∧
    (∀ r, transport (buildUploadForm file useLLM description) = .ok r →
      uploadAndProfile transport file useLLM description = .ok r) ∧
    (∀ msg, transport (buildUploadForm file useLLM description) = .error msg →
      uploadAndProfile transport file useLLM description = .error msg ∧
        ∀ r, uploadAndProfile transport file useLLM description ≠ .ok r) := by
  refine ⟨?_, ?_, ?_, ?_, ?_, ?_⟩
  · simp [buildUploadForm]
  · simp [buildUploadForm, jsBoolToString]
  · intro v hv
    cases description with
    | none => simp [buildUploadForm] at hv
    | some d =>
        simp only [buildUploadForm] at hv
        by_cases hd : d = "" <;> simp [hd] at hv
        exact ⟨d, rfl, hv⟩
  · intro d hd hne
    subst hd
    simp [buildUploadForm, hne]
  · intro r hr
    simpa [uploadAndProfile] using hr
  · intro msg hmsg
    refine ⟨by simpa [uploadAndProfile] using hmsg, ?_⟩
    intro r hr
    rw [uploadAndProfile, hmsg] at hr
    exact Except.noConfusion hr

/-- Witness for C2: a concrete file with a description against a
succeeding and a failing transport. -/
theorem uploadAndProfile_contract_witness :
    ("file", FormValue.fileV demoFile) ∈ buildUploadForm demoFile true (some "sales") ∧
    ("description", FormValue.str "sales") ∈ buildUploadForm demoFile true (some "sales") ∧
    (∃ d, (some "sales" : Option String) = some d ∧ FormValue.str "sales" = FormValue.str d) ∧
    uploadAndProfile (fun _ => .ok demoResponse) demoFile true (some "sales") =
      .ok demoResponse ∧
    uploadAndProfile (fun _ => .error "Network Error") demoFile false none =
      .error "Network Error" := by
  have hOk := uploadAndProfile_contract (fun _ => .ok demoResponse) demoFile true (some "sales")
  have hErr := uploadAndProfile_contract (fun _ => .error "Network Error") demoFile false none
  exact ⟨hOk.1, hOk.2.2.2.1 "sales" rfl (by decide),
    hOk.2.2.1 (FormValue.str "sales") (hOk.2.2.2.1 "sales" rfl (by decide)),
    hOk.2.2.2.2.1 demoResponse rfl,
    (hErr.2.2.2.2.2 "Network Error" rfl).1⟩

/-- **C3.** The Analyze action is enabled iff a file is selected and no
request is in flight; an upload intent is emitted only through an enabled
Analyze click, and then its payload is exactly the current
`(selectedFile, useLLM)` pair. -/
theorem analyzeEnabled_iff (isLoading : Bool) (s : UploadState) :
    (analyzeEnabled s isLoading = true ↔
      s.selectedFile.isSome = true ∧ isLoading = false) ∧
    (∀ e f u, (uploadStep isLoading s e).2 = some (f, u) →
      s.selectedFile = some f ∧ u = s.useLLM ∧ isLoading = false ∧
        analyzeEnabled s isLoading = true) := by
  constructor
  · cases isLoading <;>
      simp [analyzeEnabled, analyzeRendered, analyzeDisabled]
  · intro e f u h
    cases e <;> simp only [uploadStep] at h
    case clickAnalyze =>
      by_cases hen : analyzeEnabled s isLoading = true
      · rw [if_pos hen] at h
        have hload : isLoading = false := by
          have hen' := hen
          simp [analyzeEnabled, analyzeRendered, analyzeDisabled] at hen'
          exact hen'.2
        cases hsel : s.selectedFile with
        | none => simp [handleUpload, hsel] at h
        | some g =>
            simp only [handleUpload, hsel, Option.some.injEq, Prod.mk.injEq] at h
            exact ⟨by rw [h.1], h.2.symm, hload, hen⟩
      · rw [if_neg hen] at h
        exact Option.noConfusion h
    case clickCancel => split at h <;> exact Option.noConfusion h
    all_goals exact Option.noConfusion h

/-- Witness for C3: with a file selected and no request in flight, an
Analyze click emits exactly the current `(selectedFile, useLLM)` pair. -/
theorem analyzeEnabled_iff_witness :
    demoSelectedState.selectedFile = some demoFile ∧
    true = demoSelectedState.useLLM ∧ false = false ∧
    analyzeEnabled demoSelectedState false = true :=
  (analyzeEnabled_iff false demoSelectedState).2 UploadEvent.clickAnalyze demoFile true
    (by decide)

/-- **C7.** A drop or file-picker selection carrying at least one file
sets `selectedFile` to exactly the first file (extras ignored); a drop
additionally clears `isDragging`; an event carrying zero files (or a null
file list) leaves `selectedFile` unchanged. -/
theorem firstFileOnly (s : UploadState) (f : FileData) (rest : List FileData) :
    handleDrop s (f :: rest) = { s with selectedFile := some f, isDragging := false } ∧
    handleDrop s [] = { s with isDragging := false } ∧
    handleFileSelect s (some (f :: rest)) = { s with selectedFile := some f } ∧
    handleFileSelect s none = s ∧
    handleFileSelect s (some []) = s :=
  ⟨rfl, rfl, rfl, rfl, rfl⟩

/-- **C9.** Every drag event leaves `selectedFile` and `useLLM` unchanged
except that a drop may set `selectedFile`: drag-over only sets
`isDragging := true`, drag-leave only sets `isDragging := false`, a drop
changes at most `isDragging` and `selectedFile`, and no drag or drop event
ever modifies `useLLM`. -/
theorem dragEvents_frame (s : UploadState) (files : List FileData) :
    handleDragOver s = { s with isDragging := true } ∧
    handleDragLeave s = { s with isDragging := false } ∧
    (handleDrop s files).useLLM = s.useLLM ∧
    (handleDrop s files = { s with isDragging := false } ∨
      ∃ f, handleDrop s files = { s with selectedFile := some f, isDragging := false }) := by
  refine ⟨rfl, rfl, ?_, ?_⟩ <;> cases files with
  | nil => first | rfl | exact Or.inl rfl
  | cons f rest => first | rfl | exact Or.inr ⟨f, rfl⟩

/-- Remounting never changes the container's own `profileResult`. -/
theorem remount_profileResult (x : AppState) :
    (remount x).profileResult = x.profileResult := by
  rw [remount]; split <;> rfl

/-- Remounting never changes the container's mutation state. -/
theorem remount_mutation (x : AppState) :
    (remount x).mutation = x.mutation := by
  rw [remount]; split <;> rfl

/-- While a result is present the conditional rendering unmounts the
upload widget. -/
theorem remount_widget_of_some (x : AppState) (h : x.profileResult.isSome = true) :
    (remount x).widget = none := by
  cases hx : x.profileResult with
  | none => rw [hx] at h; exact absurd h (by decide)
  | some r => simp [remount, hx]

/-- In every reachable dashboard state that displays a result, the upload
widget is unmounted, so it holds no residual local state. -/
theorem reachable_widget_unmounted {a : AppState} (h : Reachable a) :
    a.profileResult.isSome = true → a.widget = none := by
  induction h with
  | init => decide
  | upload _ _ =>
      intro hsome
      simp [appUpload, remount_profileResult] at hsome
  | success data _ _ =>
      intro _
      exact remount_widget_of_some _ (by simp)
  | failure msg _ _ =>
      intro hsome
      rw [appFailure] at hsome ⊢
      rw [remount_profileResult] at hsome
      exact remount_widget_of_some _ (by simpa using hsome)
  | reset _ _ =>
      intro hsome
      simp [appReset, remount_profileResult] at hsome
  | widgetEvent e _ ih =>
      intro hsome
      have hw := ih (by simpa [appWidgetEvent] using hsome)
      simp [appWidgetEvent, hw]

/-- **C8.** The container's result state is cleared both when a new
upload begins and when the user resets; and a Reset taken from any
reachable state showing a result returns the container exactly to the
initial upload view: no result, an idle error-free mutation, and a freshly
mounted widget with no selected file. -/
theorem dashboard_result_lifecycle :
    (∀ a : AppState, (appUpload a).profileResult = none) ∧
    (∀ a : AppState, (appReset a).profileResult = none) ∧
    (∀ (a : AppState) (r : ProfileResponse), Reachable a → a.profileResult = some r →
      appReset a = { profileResult := none, mutation := initialMutation,
                     widget := some initialUploadState }) := by
  refine ⟨?_, ?_, ?_⟩
  · intro a
    rw [appUpload, remount_profileResult]
  · intro a
    rw [appReset, remount_profileResult]
  · intro a r hre hsome
    have hw : a.widget = none := reachable_widget_unmounted hre (by rw [hsome]; rfl)
    simp [appReset, remount, hw]

/-- Witness for C8: resetting right after a successful result restores
the exact initial upload view. -/
theorem dashboard_result_lifecycle_witness :
    appReset (appSuccess initialAppState demoResponse) =
      { profileResult := none, mutation := initialMutation,
        widget := some initialUploadState } :=
  dashboard_result_lifecycle.2.2 (appSuccess initialAppState demoResponse) demoResponse
    (Reachable.success demoResponse Reachable.init) rfl

end DataOps
